import Mathlib

/-!
Shallow embedding of the MCP JSON-RPC HTTP dispatchers of the
austral-genai-rag repository: the weather server (src/mcp/weather-http.ts),
the ChromaDB server (src/chroma/chroma-mcp-http-server.ts) and the
hand-rolled Elasticsearch server, together with the tool handlers they
dispatch to.  External search backends are modelled as oracles (records of
fallible functions); the JavaScript dynamic-access semantics that the
dispatch code relies on (property access on `undefined`/`null` throws,
property access on other non-objects yields `undefined`,
`JSON.stringify` drops `undefined`-valued fields) is made explicit.
-/

namespace RagMcp

/-- JSON values as produced by `JSON.parse`: note that `undefined` is not a
JSON value; absent properties are modelled by `Option Json` with `none`
playing the role of JavaScript `undefined`.  Numbers are modelled as
integers (every numeric literal appearing in the dispatch code is an
integer). -/
inductive Json where
  | null
  | bool (b : Bool)
  | num (n : Int)
  | str (s : String)
  | arr (elems : List Json)
  | obj (fields : List (String × Json))

/-- Property lookup on a JSON value: on an object, the first binding of the
key; on any other value, `none` (JavaScript yields `undefined` for a
missing property and for property access on primitives). -/
def Json.lookupKey : Json → String → Option Json
  | .obj fields, k => fields.lookup k
  | _, _ => none

/-- JavaScript property access `v.k` where `v` may be `undefined` (`none`)
or `null`: both throw a TypeError; any other value yields the property (or
`undefined`).  The `Except` error channel models the thrown exception,
carrying its message. -/
def jsGet (v : Option Json) (k : String) : Except String (Option Json) :=
  match v with
  | none => .error ("Cannot read properties of undefined (reading " ++ k ++ ")")
  | some .null => .error ("Cannot read properties of null (reading " ++ k ++ ")")
  | some j => .ok (j.lookupKey k)

mutual

/-- JavaScript string coercion, as performed by a template literal
`${v}` on a defined value. -/
def jsStr : Json → String
  | .null => "null"
  | .bool true => "true"
  | .bool false => "false"
  | .num n => toString n
  | .str s => s
  | .arr elems => jsStrList elems
  | .obj _ => "[object Object]"

/-- Array coercion: elements joined by commas, `null` elements printed
as the empty string. -/
def jsStrList : List Json → String
  | [] => ""
  | [x] => jsStrElem x
  | x :: xs => jsStrElem x ++ "," ++ jsStrList xs

def jsStrElem : Json → String
  | .null => ""
  | .bool b => jsStr (.bool b)
  | .num n => jsStr (.num n)
  | .str s => jsStr (.str s)
  | .arr elems => jsStr (.arr elems)
  | .obj fields => jsStr (.obj fields)

end

/-- Template-literal coercion of a possibly-`undefined` value. -/
def jsCoe : Option Json → String
  | none => "undefined"
  | some v => jsStr v

/-- String escaping for serialization (quote and backslash; the rarer
control-character escapes of `JSON.stringify` do not occur in this
development and are elided). -/
def jsonQuote (s : String) : String :=
  "\"" ++ String.join (s.data.map (fun c =>
    if c = '\"' then "\\\"" else if c = '\\' then "\\\\" else String.singleton c)) ++ "\""

mutual

/-- `JSON.stringify` on a JSON value (the 2-space pretty-printing used in
the source is whitespace only and is elided). -/
def jsonStringify : Json → String
  | .null => "null"
  | .bool true => "true"
  | .bool false => "false"
  | .num n => toString n
  | .str s => jsonQuote s
  | .arr elems => "[" ++ jsonStringifyList elems ++ "]"
  | .obj fields => "\x7b" ++ jsonStringifyFields fields ++ "\x7d"

def jsonStringifyList : List Json → String
  | [] => ""
  | [x] => jsonStringify x
  | x :: xs => jsonStringify x ++ "," ++ jsonStringifyList xs

def jsonStringifyFields : List (String × Json) → String
  | [] => ""
  | [(k, v)] => jsonQuote k ++ ":" ++ jsonStringify v
  | (k, v) :: fs => jsonQuote k ++ ":" ++ jsonStringify v ++ "," ++ jsonStringifyFields fs

end

/-- A JavaScript object literal whose field values may be `undefined`,
as it appears after `JSON.stringify`: `undefined`-valued fields are
dropped. -/
def jsObj (fields : List (String × Option Json)) : Json :=
  Json.obj (fields.filterMap (fun kv => kv.2.map (fun v => (kv.1, v))))

/-- An HTTP response: status code and JSON body. -/
structure HttpResp where
  status : Nat
  body : Json

/-- The `{jsonrpc, id, result}` success envelope; an `undefined` id is
dropped by serialization. -/
def rpcResult (id : Option Json) (result : Json) : Json :=
  jsObj [("jsonrpc", some (Json.str "2.0")), ("id", id), ("result", some result)]

/-- The `{jsonrpc, id, error: {code, message}}` envelope produced by the
per-call catch blocks and the unknown-method branch. -/
def rpcError (id : Option Json) (code : Int) (message : String) : Json :=
  jsObj [("jsonrpc", some (Json.str "2.0")), ("id", id),
         ("error", some (Json.obj [("code", Json.num code), ("message", Json.str message)]))]

/-- The `{jsonrpc, error, id: null}` body of the outer catch block
(HTTP 500 path); note the literal `null` id. -/
def rpcCatchAll (message : String) : Json :=
  Json.obj [("jsonrpc", Json.str "2.0"),
            ("error", Json.obj [("code", Json.num (-32603)), ("message", Json.str message)]),
            ("id", Json.null)]

/-- `request.method === s`: strict equality of a possibly-`undefined`
value against a string literal. -/
def methodIs (m : Option Json) (s : String) : Bool :=
  match m with
  | some (Json.str t) => t == s
  | _ => false

/-- The `result` payload of the `initialize` branch, identical in every
server up to the server name. -/
def initResultPayload (serverName : String) : Json :=
  Json.obj [("protocolVersion", Json.str "2024-11-05"),
            ("capabilities", Json.obj [("tools", Json.obj [])]),
            ("serverInfo", Json.obj [("name", Json.str serverName),
                                     ("version", Json.str "1.0.0")])]

/-- The `{content: [{type: "text", text}]}` result payload shared by every
successful tool call. -/
def textContent (t : String) : Json :=
  Json.obj [("content", Json.arr [Json.obj [("type", Json.str "text"),
                                            ("text", Json.str t)]])]

/-! ## Weather server (src/mcp/weather-http.ts) -/

/-- The weather server `TOOLS` constant. -/
def weatherTOOLS : Json :=
  Json.arr [Json.obj
    [("name", Json.str "get_weather"),
     ("description", Json.str "Get weather for location"),
     ("inputSchema", Json.obj
       [("type", Json.str "object"),
        ("properties", Json.obj
          [("location", Json.obj
            [("type", Json.str "string"),
             ("description", Json.str "Location to get weather for")])]),
        ("required", Json.arr [Json.str "location"])])]]

/-- `handleToolsList` of the weather server. -/
def weatherHandleToolsList (id : Option Json) : Json :=
  rpcResult id (Json.obj [("tools", weatherTOOLS)])

/-- The try-block of the weather `handleToolsCall`: the switch on
`params.name` runs the `get_weather` case or throws `Unknown tool`. -/
def weatherToolsCallTry (id : Option Json) (params : Option Json)
    (name : Option Json) : Except String Json :=
  match name with
  | some (Json.str s) =>
      if s = "get_weather" then do
        let args ← jsGet params "arguments"
        let location ← jsGet args "location"
        let weatherResponse := "It\x27s always sunny in " ++ jsCoe location
        .ok (rpcResult id (textContent weatherResponse))
      else .error ("Unknown tool: " ++ s)
  | _ => .error ("Unknown tool: " ++ jsCoe name)

/-- `handleToolsCall` of the weather server: the log line interpolates
`params.name` before the try block (that access can throw and escape the
function); every exception inside the try block becomes a code `-32603`
error envelope. -/
def weatherHandleToolsCall (id : Option Json) (params : Option Json) :
    Except String Json := do
  let name ← jsGet params "name"
  match weatherToolsCallTry id params name with
  | .ok resp => .ok resp
  | .error e => .ok (rpcError id (-32603) e)

/-- The try-block of the weather server request handler: parse, then route
on `request.method`. -/
def weatherServeTry (parsed : Except String Json) : Except String HttpResp := do
  let request ← parsed
  let method ← jsGet (some request) "method"
  if methodIs method "tools/list" then
    .ok ⟨200, weatherHandleToolsList (request.lookupKey "id")⟩
  else if methodIs method "tools/call" then
    let resp ← weatherHandleToolsCall (request.lookupKey "id") (request.lookupKey "params")
    .ok ⟨200, resp⟩
  else if methodIs method "initialize" then
    .ok ⟨200, rpcResult (request.lookupKey "id") (initResultPayload "weather-mcp-server")⟩
  else if methodIs method "notifications/initialized" then
    .ok ⟨200, Json.obj [("jsonrpc", Json.str "2.0")]⟩
  else
    .ok ⟨200, rpcError (request.lookupKey "id") (-32601)
                ("Method not found: " ++ jsCoe method)⟩

/-- The weather server `POST /mcp` handler: the argument is the outcome of
`JSON.parse` on the request body (`.error` = parse exception); any
exception escaping the try block is converted by the outer catch to an
HTTP 500 with the catch-all envelope. -/
def weatherServe (parsed : Except String Json) : HttpResp :=
  match weatherServeTry parsed with
  | .ok resp => resp
  | .error e => ⟨500, rpcCatchAll e⟩

/-! ## ChromaDB server (src/chroma/chroma-mcp-http-server.ts) -/

/-- The shape of `collection.query({queryTexts: [q], nResults: n})`:
row 0 of each parallel array (one query text is sent, so the handler reads
row 0 throughout; `distances` is optional). -/
structure ChromaQueryResult where
  idsRow : List String
  distancesRow : Option (List Json)
  metadatasRow : List Json
  documentsRow : List Json

/-- The ChromaDB client as seen by the handler, as an oracle: each
operation either yields a value or throws (connection refused, missing
collection, ...).  `getCollection` models awaiting the collection handle;
the handle-bound operations are keyed by the collection name that fetched
the handle. -/
structure ChromaBackend where
  getCollection : Option Json → Except String Unit
  query : Option Json → Option Json → Option Json → Except String ChromaQueryResult
  listCollections : Except String (List String)
  count : Option Json → Except String Int

/-- The ChromaDB server `TOOLS` constant. -/
def chromaTOOLS : Json :=
  Json.arr
    [Json.obj
      [("name", Json.str "chroma_query_collection"),
       ("description", Json.str "Search documents in a ChromaDB collection using semantic similarity"),
       ("inputSchema", Json.obj
         [("type", Json.str "object"),
          ("properties", Json.obj
            [("collection", Json.obj
               [("type", Json.str "string"),
                ("description", Json.str "Collection name (default: \x27products\x27)")]),
             ("query", Json.obj
               [("type", Json.str "string"),
                ("description", Json.str "Search query text")]),
             ("n_results", Json.obj
               [("type", Json.str "number"),
                ("description", Json.str "Number of results (default: 5)")])]),
          ("required", Json.arr [Json.str "query"])])],
     Json.obj
      [("name", Json.str "chroma_list_collections"),
       ("description", Json.str "List all collections in ChromaDB"),
       ("inputSchema", Json.obj
         [("type", Json.str "object"), ("properties", Json.obj [])])],
     Json.obj
      [("name", Json.str "chroma_get_collection_info"),
       ("description", Json.str "Get information about a collection"),
       ("inputSchema", Json.obj
         [("type", Json.str "object"),
          ("properties", Json.obj
            [("collection", Json.obj
               [("type", Json.str "string"),
                ("description", Json.str "Collection name")])]),
          ("required", Json.arr [Json.str "collection"])])]]

/-- `handleToolsList` of the ChromaDB server. -/
def chromaHandleToolsList (id : Option Json) : Json :=
  rpcResult id (Json.obj [("tools", chromaTOOLS)])

/-- `results.ids[0].map((id, i) => ({id, distance, metadata, document}))`:
out-of-range array indexing yields `undefined`, and `undefined` fields are
dropped by serialization (`jsObj`). -/
def chromaFormat (r : ChromaQueryResult) : List Json :=
  r.idsRow.enum.map (fun p =>
    jsObj [("id", some (Json.str p.2)),
           ("distance", r.distancesRow.bind (fun ds => ds.get? p.1)),
           ("metadata", r.metadatasRow.get? p.1),
           ("document", r.documentsRow.get? p.1)])

/-- The try-block of the ChromaDB `handleToolsCall`: the switch on
`params.name` with the three tool cases and the `Unknown tool` default.
The destructuring defaults apply only when the property is `undefined`. -/
def chromaToolsCallTry (B : ChromaBackend) (id : Option Json)
    (params : Option Json) (name : Option Json) : Except String Json :=
  match name with
  | some (Json.str s) =>
      if s = "chroma_query_collection" then do
        let args ← jsGet params "arguments"
        let collection0 ← jsGet args "collection"
        let collection := collection0.getD (Json.str "products")
        let query ← jsGet args "query"
        let nResults0 ← jsGet args "n_results"
        let nResults := nResults0.getD (Json.num 5)
        let _ ← B.getCollection (some collection)
        let results ← B.query (some collection) query (some nResults)
        let formattedResults := chromaFormat results
        .ok (rpcResult id (textContent (jsonStringify (Json.arr formattedResults))))
      else if s = "chroma_list_collections" then do
        let collections ← B.listCollections
        let collectionList := collections.map Json.str
        .ok (rpcResult id (textContent (jsonStringify (Json.arr collectionList))))
      else if s = "chroma_get_collection_info" then do
        let args ← jsGet params "arguments"
        let collection ← jsGet args "collection"
        let _ ← B.getCollection collection
        let count ← B.count collection
        let info := jsObj [("name", collection), ("count", some (Json.num count))]
        .ok (rpcResult id (textContent (jsonStringify info)))
      else .error ("Unknown tool: " ++ s)
  | _ => .error ("Unknown tool: " ++ jsCoe name)

/-- `handleToolsCall` of the ChromaDB server: `params.name` is
interpolated by the log line before the try block; exceptions inside the
try block become code `-32603` error envelopes. -/
def chromaHandleToolsCall (B : ChromaBackend) (id : Option Json)
    (params : Option Json) : Except String Json := do
  let name ← jsGet params "name"
  match chromaToolsCallTry B id params name with
  | .ok resp => .ok resp
  | .error e => .ok (rpcError id (-32603) e)

/-- The try-block of the ChromaDB server request handler. -/
def chromaServeTry (B : ChromaBackend) (parsed : Except String Json) :
    Except String HttpResp := do
  let request ← parsed
  let method ← jsGet (some request) "method"
  if methodIs method "tools/list" then
    .ok ⟨200, chromaHandleToolsList (request.lookupKey "id")⟩
  else if methodIs method "tools/call" then
    let resp ← chromaHandleToolsCall B (request.lookupKey "id") (request.lookupKey "params")
    .ok ⟨200, resp⟩
  else if methodIs method "initialize" then
    .ok ⟨200, rpcResult (request.lookupKey "id") (initResultPayload "chromadb-mcp-server")⟩
  else if methodIs method "notifications/initialized" then
    .ok ⟨200, Json.obj [("jsonrpc", Json.str "2.0")]⟩
  else
    .ok ⟨200, rpcError (request.lookupKey "id") (-32601)
                ("Method not found: " ++ jsCoe method)⟩

/-- The ChromaDB server `POST /mcp` handler. -/
def chromaServe (B : ChromaBackend) (parsed : Except String Json) : HttpResp :=
  match chromaServeTry B parsed with
  | .ok resp => resp
  | .error e => ⟨500, rpcCatchAll e⟩

/-! ## Hand-rolled Elasticsearch server -/

/-- One hit of `esClient.search(...)`: id, score (possibly `null`), and
the source document. -/
structure EsHit where
  hitId : String
  score : Json
  source : Json

/-- The portion of the Elasticsearch search response the handler reads. -/
structure EsSearchResult where
  total : Json
  hits : List EsHit

/-- The portion of the `esClient.index(...)` response the handler reads. -/
structure EsIndexResult where
  result : String
  docId : String
  index : String

/-- One row of `esClient.cat.indices({format: json})`. -/
structure EsIndexRow where
  index : Json
  health : Json
  status : Json
  docsCount : Json
  storeSize : Json

/-- The Elasticsearch client as seen by the handler, as an oracle. -/
structure EsBackend where
  search : Option Json → Option Json → Option Json → Except String EsSearchResult
  indexDoc : Option Json → Option Json → Option Json → Except String EsIndexResult
  catIndices : Except String (List EsIndexRow)

/-- The try-block of the hand-rolled Elasticsearch `handleToolsCall`:
three tool cases and the `Unknown tool` default. -/
def esToolsCallTry (B : EsBackend) (id : Option Json)
    (params : Option Json) (name : Option Json) : Except String Json :=
  match name with
  | some (Json.str s) =>
      if s = "elasticsearch_search" then do
        let args ← jsGet params "arguments"
        let index ← jsGet args "index"
        let query ← jsGet args "query"
        let size0 ← jsGet args "size"
        let size := size0.getD (Json.num 10)
        let esResult ← B.search index query (some size)
        let hits := esResult.hits.map (fun hit =>
          Json.obj [("id", Json.str hit.hitId), ("score", hit.score), ("source", hit.source)])
        .ok (rpcResult id (textContent (jsonStringify
          (Json.obj [("total", esResult.total), ("hits", Json.arr hits)]))))
      else if s = "elasticsearch_index_document" then do
        let args ← jsGet params "arguments"
        let index ← jsGet args "index"
        let document ← jsGet args "document"
        let docId ← jsGet args "id"
        let esResult ← B.indexDoc index docId document
        .ok (rpcResult id (textContent (jsonStringify
          (Json.obj [("result", Json.str esResult.result),
                     ("id", Json.str esResult.docId),
                     ("index", Json.str esResult.index)]))))
      else if s = "elasticsearch_get_indices" then do
        let rows ← B.catIndices
        let indices := rows.map (fun row =>
          Json.obj [("name", row.index), ("health", row.health), ("status", row.status),
                    ("docsCount", row.docsCount), ("storeSize", row.storeSize)])
        .ok (rpcResult id (textContent (jsonStringify (Json.arr indices))))
      else .error ("Unknown tool: " ++ s)
  | _ => .error ("Unknown tool: " ++ jsCoe name)

/-- `handleToolsCall` of the hand-rolled Elasticsearch server. -/
def esHandleToolsCall (B : EsBackend) (id : Option Json)
    (params : Option Json) : Except String Json := do
  let name ← jsGet params "name"
  match esToolsCallTry B id params name with
  | .ok resp => .ok resp
  | .error e => .ok (rpcError id (-32603) e)

/-! ## Elasticsearch document-store model

The Elasticsearch engine itself is not part of this repository; its
index/write semantics are modelled from the spec so that the write path of
`elasticsearch_index_document` can be settled against a concrete state. -/

/-- Modelled from the spec: one Elasticsearch index viewed as a map from
document id to document (association list; uniqueness of the keys is the
map invariant carried as a hypothesis where needed). -/
abbrev EsStore := List (String × Json)

/-- Modelled from the spec: writing a document under an explicit id
replaces the existing entry with that id or, when absent, adds one
(`esClient.index` with an explicit `id` is an upsert, not an append). -/
def esPut (store : EsStore) (docId : String) (doc : Json) : EsStore :=
  if (store.map Prod.fst).contains docId then
    store.map (fun kv => if kv.1 = docId then (docId, doc) else kv)
  else
    store ++ [(docId, doc)]

/-- Modelled from the spec: `esClient.index({index, id, document})` —
with an explicit string id the write is `esPut` under that id and reports
`updated`/`created`; with the id absent the engine appends the document
under a fresh generated id (`freshId`). -/
def esStoreIndex (store : EsStore) (docId : Option Json) (freshId : String)
    (doc : Option Json) : EsStore × EsIndexResult :=
  match docId with
  | some (Json.str s) =>
      (esPut store s (doc.getD Json.null),
       ⟨if (store.map Prod.fst).contains s then "updated" else "created", s, "idx"⟩)
  | _ =>
      (store ++ [(freshId, doc.getD Json.null)], ⟨"created", freshId, "idx"⟩)

/-- Number of documents carrying a given id in a store. -/
def countKey (store : EsStore) (docId : String) : Nat :=
  (store.filter (fun kv => kv.1 == docId)).length

/-- One `elasticsearch_index_document` tools/call served against a live
store: the dispatch, extraction and response shaping follow the
hand-rolled handler; the store transition is the spec-modelled
`esStoreIndex`. -/
def esServeIndexCallTry (store : EsStore) (freshId : String) (id : Option Json)
    (params : Option Json) (name : Option Json) : Except String (EsStore × Json) :=
  match name with
  | some (Json.str s) =>
      if s = "elasticsearch_index_document" then do
        let args ← jsGet params "arguments"
        let _index ← jsGet args "index"
        let document ← jsGet args "document"
        let docId ← jsGet args "id"
        let (store2, esResult) := esStoreIndex store docId freshId document
        .ok (store2, rpcResult id (textContent (jsonStringify
          (Json.obj [("result", Json.str esResult.result),
                     ("id", Json.str esResult.docId),
                     ("index", Json.str esResult.index)]))))
      else .error ("Unknown tool: " ++ s)
  | _ => .error ("Unknown tool: " ++ jsCoe name)

/-- The stateful counterpart of `esHandleToolsCall` for the write path:
an exception inside the try block leaves the store unchanged and yields
the `-32603` envelope. -/
def esServeIndexCall (store : EsStore) (freshId : String) (id : Option Json)
    (params : Option Json) : Except String (EsStore × Json) := do
  let name ← jsGet params "name"
  match esServeIndexCallTry store freshId id params name with
  | .ok r => .ok r
  | .error e => .ok (store, rpcError id (-32603) e)

/-- The document value the write handler extracts from the arguments
(`undefined` is stored as `null` by the store model). -/
def esDocOf (af : List (String × Json)) : Json :=
  ((Json.obj af).lookupKey "document").getD Json.null

/-! ## Concrete fixtures (used to evaluate the theorems on closed inputs) -/

/-- A fixed vector-query result row set. -/
def demoQueryResult : ChromaQueryResult :=
  ⟨["p1", "p2"], some [Json.num 0, Json.num 1],
   [Json.null, Json.null], [Json.str "doc one", Json.str "doc two"]⟩

/-- A ChromaDB backend oracle whose calls all succeed. -/
def demoChromaBackend : ChromaBackend where
  getCollection := fun _ => .ok ()
  query := fun _ _ _ => .ok demoQueryResult
  listCollections := .ok ["products"]
  count := fun _ => .ok 8

/-- A ChromaDB backend oracle whose calls all fail (backend down). -/
def downChromaBackend : ChromaBackend where
  getCollection := fun _ => .error "connect ECONNREFUSED"
  query := fun _ _ _ => .error "connect ECONNREFUSED"
  listCollections := .error "connect ECONNREFUSED"
  count := fun _ => .error "connect ECONNREFUSED"

/-- An Elasticsearch backend oracle whose calls all succeed. -/
def demoEsBackend : EsBackend where
  search := fun _ _ _ =>
    .ok ⟨Json.num 1, [⟨"doc1", Json.num 1, Json.obj [("name", Json.str "Dell XPS 15")]⟩]⟩
  indexDoc := fun _ _ _ => .ok ⟨"created", "d1", "products"⟩
  catIndices := .ok [⟨Json.str "products", Json.str "green", Json.str "open",
                      Json.num 3, Json.str "1kb"⟩]

/-- An Elasticsearch backend oracle whose calls all fail. -/
def downEsBackend : EsBackend where
  search := fun _ _ _ => .error "connect ECONNREFUSED"
  indexDoc := fun _ _ _ => .error "connect ECONNREFUSED"
  catIndices := .error "connect ECONNREFUSED"

/-- A `tools/call` request naming an unregistered tool. -/
def demoUnknownToolReq : List (String × Json) :=
  [("jsonrpc", Json.str "2.0"), ("id", Json.num 1), ("method", Json.str "tools/call"),
   ("params", Json.obj [("name", Json.str "does_not_exist")])]

/-- A plain `tools/list` request. -/
def demoToolsListReq : List (String × Json) :=
  [("jsonrpc", Json.str "2.0"), ("id", Json.num 1), ("method", Json.str "tools/list")]

/-- A `tools/call` request that carries an id but no `params` member. -/
def demoNoParamsReq : List (String × Json) :=
  [("jsonrpc", Json.str "2.0"), ("id", Json.num 7), ("method", Json.str "tools/call")]

/-- A request whose method is none of the four handled ones. -/
def demoBadMethodReq : List (String × Json) :=
  [("jsonrpc", Json.str "2.0"), ("id", Json.num 2), ("method", Json.str "resources/list")]

/-- A plain `initialize` request. -/
def demoInitReq : List (String × Json) :=
  [("jsonrpc", Json.str "2.0"), ("id", Json.num 0), ("method", Json.str "initialize")]

/-- The `notifications/initialized` notification (carrying an id, as a
client may well send one). -/
def demoNotifReq : List (String × Json) :=
  [("jsonrpc", Json.str "2.0"), ("id", Json.num 5),
   ("method", Json.str "notifications/initialized")]

/-- `tools/call` params for `get_weather` with a location. -/
def demoGetWeatherParams : List (String × Json) :=
  [("name", Json.str "get_weather"),
   ("arguments", Json.obj [("location", Json.str "Paris")])]

/-- `tools/call` params for `chroma_query_collection` (collection and
n_results left to their defaults). -/
def demoChromaQueryParams : List (String × Json) :=
  [("name", Json.str "chroma_query_collection"),
   ("arguments", Json.obj [("query", Json.str "laptop")])]

/-- `tools/call` params for `chroma_list_collections`. -/
def demoChromaListParams : List (String × Json) :=
  [("name", Json.str "chroma_list_collections")]

/-- `tools/call` params for `chroma_get_collection_info`. -/
def demoChromaInfoParams : List (String × Json) :=
  [("name", Json.str "chroma_get_collection_info"),
   ("arguments", Json.obj [("collection", Json.str "products")])]

/-- `tools/call` params for `elasticsearch_search` whose arguments object
is empty — both required fields missing. -/
def demoEsSearchParams : List (String × Json) :=
  [("name", Json.str "elasticsearch_search"), ("arguments", Json.obj [])]

/-- `tools/call` params for `elasticsearch_index_document` with an
explicit document id. -/
def demoEsIndexParams : List (String × Json) :=
  [("name", Json.str "elasticsearch_index_document"),
   ("arguments", Json.obj
     [("index", Json.str "products"),
      ("document", Json.obj [("name", Json.str "Dell XPS 15")]),
      ("id", Json.str "d42")])]

/-! ## Observables on response bodies -/

/-- Whether a serialized object carries a given key. -/
def hasKeyB (j : Json) (k : String) : Bool :=
  (j.lookupKey k).isSome

/-- A JSON-RPC response carries exactly one of `result` and `error`. -/
def exactlyOneResultOrError (j : Json) : Bool :=
  xor (hasKeyB j "result") (hasKeyB j "error")

/-- The `error.code` of a response body, when present. -/
def errorCodeOf (j : Json) : Option Json :=
  (j.lookupKey "error").bind (fun e => e.lookupKey "code")

/-- `result.content[0].type` of a response body, when present. -/
def firstContentType (j : Json) : Option Json :=
  (((j.lookupKey "result").bind (fun r => r.lookupKey "content")).bind
    (fun c => match c with | Json.arr (x :: _) => some x | _ => none)).bind
    (fun x => x.lookupKey "type")

/-- `result.content[0].text` of a response body, when present. -/
def firstContentText (j : Json) : Option Json :=
  (((j.lookupKey "result").bind (fun r => r.lookupKey "content")).bind
    (fun c => match c with | Json.arr (x :: _) => some x | _ => none)).bind
    (fun x => x.lookupKey "text")

/-- Whether a possibly-absent value is a JSON string. -/
def isStrB : Option Json → Bool
  | some (Json.str _) => true
  | _ => false

/-- The `result.tools` payload of a `tools/list` response body. -/
def listedTools (j : Json) : Option Json :=
  (j.lookupKey "result").bind (fun r => r.lookupKey "tools")

/-- The names advertised by a tools array (entries without a string
`name` contribute nothing). -/
def toolNamesOf : Json → List String
  | Json.arr ts => ts.filterMap (fun t =>
      match t.lookupKey "name" with
      | some (Json.str s) => some s
      | _ => none)
  | _ => []

/-- The number of entries of a tools array. -/
def toolCount : Json → Nat
  | Json.arr ts => ts.length
  | _ => 0

/-! ## Helper lemmas -/

@[simp] theorem ok_bind {α β : Type} (a : α) (f : α → Except String β) :
    (Except.ok a >>= f) = f a := rfl

@[simp] theorem error_bind {α β : Type} (e : String) (f : α → Except String β) :
    ((Except.error e : Except String α) >>= f) = Except.error e := rfl

@[simp] theorem jsGet_obj (fs : List (String × Json)) (k : String) :
    jsGet (some (Json.obj fs)) k = Except.ok ((Json.obj fs).lookupKey k) := rfl

theorem methodIs_of_ne {m : Option Json} {s : String}
    (h : m ≠ some (Json.str s)) : methodIs m s = false := by
  cases m with
  | none => rfl
  | some j =>
    cases j with
    | str t =>
      simp only [methodIs, beq_eq_false_iff_ne, ne_eq]
      intro hts
      exact h (by rw [hts])
    | null => rfl
    | bool b => rfl
    | num n => rfl
    | arr l => rfl
    | obj fs => rfl

@[simp] theorem methodIs_self (s : String) :
    methodIs (some (Json.str s)) s = true := by
  simp [methodIs]

@[simp] theorem rpcResult_lookup_id (id : Option Json) (r : Json) :
    (rpcResult id r).lookupKey "id" = id := by
  cases id <;> rfl

@[simp] theorem rpcResult_lookup_result (id : Option Json) (r : Json) :
    (rpcResult id r).lookupKey "result" = some r := by
  cases id <;> rfl

@[simp] theorem rpcResult_lookup_error (id : Option Json) (r : Json) :
    (rpcResult id r).lookupKey "error" = none := by
  cases id <;> rfl

@[simp] theorem rpcError_lookup_id (id : Option Json) (c : Int) (m : String) :
    (rpcError id c m).lookupKey "id" = id := by
  cases id <;> rfl

@[simp] theorem rpcError_lookup_result (id : Option Json) (c : Int) (m : String) :
    (rpcError id c m).lookupKey "result" = none := by
  cases id <;> rfl

@[simp] theorem rpcError_lookup_error (id : Option Json) (c : Int) (m : String) :
    (rpcError id c m).lookupKey "error" =
      some (Json.obj [("code", Json.num c), ("message", Json.str m)]) := by
  cases id <;> rfl

@[simp] theorem rpcError_errorCode (id : Option Json) (c : Int) (m : String) :
    errorCodeOf (rpcError id c m) = some (Json.num c) := by
  cases id <;> rfl

theorem rpcResult_exactlyOne (id : Option Json) (r : Json) :
    exactlyOneResultOrError (rpcResult id r) = true := by
  simp [exactlyOneResultOrError, hasKeyB]

theorem rpcError_exactlyOne (id : Option Json) (c : Int) (m : String) :
    exactlyOneResultOrError (rpcError id c m) = true := by
  simp [exactlyOneResultOrError, hasKeyB]

theorem bind_eq_ok {α β : Type} {x : Except String α} {f : α → Except String β} {r : β}
    (h : (x >>= f) = Except.ok r) : ∃ a, x = Except.ok a ∧ f a = Except.ok r := by
  cases x with
  | ok a => exact ⟨a, rfl, h⟩
  | error e => exact Except.noConfusion h

theorem jsCoe_str (s : String) : jsCoe (some (Json.str s)) = s := by
  simp [jsCoe, jsStr]

/-! ### Weather dispatcher branch reductions -/

theorem weatherServe_parseError (e : String) :
    weatherServe (Except.error e) = ⟨500, rpcCatchAll e⟩ := rfl

theorem weatherServe_toolsList (rf : List (String × Json))
    (hm : (Json.obj rf).lookupKey "method" = some (Json.str "tools/list")) :
    weatherServe (Except.ok (Json.obj rf)) =
      ⟨200, weatherHandleToolsList ((Json.obj rf).lookupKey "id")⟩ := by
  simp [weatherServe, weatherServeTry, hm]

theorem weatherServe_toolsCall (rf : List (String × Json))
    (hm : (Json.obj rf).lookupKey "method" = some (Json.str "tools/call")) :
    weatherServe (Except.ok (Json.obj rf)) =
      (match weatherHandleToolsCall ((Json.obj rf).lookupKey "id")
               ((Json.obj rf).lookupKey "params") with
       | .ok resp => ⟨200, resp⟩
       | .error e => ⟨500, rpcCatchAll e⟩) := by
  cases hcall : weatherHandleToolsCall ((Json.obj rf).lookupKey "id")
      ((Json.obj rf).lookupKey "params") with
  | ok resp => simp [weatherServe, weatherServeTry, hm, methodIs, hcall]
  | error e => simp [weatherServe, weatherServeTry, hm, methodIs, hcall]

theorem weatherServe_init (rf : List (String × Json))
    (hm : (Json.obj rf).lookupKey "method" = some (Json.str "initialize")) :
    weatherServe (Except.ok (Json.obj rf)) =
      ⟨200, rpcResult ((Json.obj rf).lookupKey "id")
              (initResultPayload "weather-mcp-server")⟩ := by
  simp [weatherServe, weatherServeTry, hm, methodIs]

theorem weatherServe_notif (rf : List (String × Json))
    (hm : (Json.obj rf).lookupKey "method" = some (Json.str "notifications/initialized")) :
    weatherServe (Except.ok (Json.obj rf)) =
      ⟨200, Json.obj [("jsonrpc", Json.str "2.0")]⟩ := by
  simp [weatherServe, weatherServeTry, hm, methodIs]

theorem weatherServe_unknownMethod (rf : List (String × Json)) (method : Option Json)
    (hm : (Json.obj rf).lookupKey "method" = method)
    (h1 : method ≠ some (Json.str "tools/list"))
    (h2 : method ≠ some (Json.str "tools/call"))
    (h3 : method ≠ some (Json.str "initialize"))
    (h4 : method ≠ some (Json.str "notifications/initialized")) :
    weatherServe (Except.ok (Json.obj rf)) =
      ⟨200, rpcError ((Json.obj rf).lookupKey "id") (-32601)
              ("Method not found: " ++ jsCoe method)⟩ := by
  simp [weatherServe, weatherServeTry, hm, methodIs_of_ne h1, methodIs_of_ne h2,
        methodIs_of_ne h3, methodIs_of_ne h4]

/-! ### ChromaDB dispatcher branch reductions -/

theorem chromaServe_parseError (B : ChromaBackend) (e : String) :
    chromaServe B (Except.error e) = ⟨500, rpcCatchAll e⟩ := rfl

theorem chromaServe_toolsList (B : ChromaBackend) (rf : List (String × Json))
    (hm : (Json.obj rf).lookupKey "method" = some (Json.str "tools/list")) :
    chromaServe B (Except.ok (Json.obj rf)) =
      ⟨200, chromaHandleToolsList ((Json.obj rf).lookupKey "id")⟩ := by
  simp [chromaServe, chromaServeTry, hm]

theorem chromaServe_toolsCall (B : ChromaBackend) (rf : List (String × Json))
    (hm : (Json.obj rf).lookupKey "method" = some (Json.str "tools/call")) :
    chromaServe B (Except.ok (Json.obj rf)) =
      (match chromaHandleToolsCall B ((Json.obj rf).lookupKey "id")
               ((Json.obj rf).lookupKey "params") with
       | .ok resp => ⟨200, resp⟩
       | .error e => ⟨500, rpcCatchAll e⟩) := by
  cases hcall : chromaHandleToolsCall B ((Json.obj rf).lookupKey "id")
      ((Json.obj rf).lookupKey "params") with
  | ok resp => simp [chromaServe, chromaServeTry, hm, methodIs, hcall]
  | error e => simp [chromaServe, chromaServeTry, hm, methodIs, hcall]

theorem chromaServe_init (B : ChromaBackend) (rf : List (String × Json))
    (hm : (Json.obj rf).lookupKey "method" = some (Json.str "initialize")) :
    chromaServe B (Except.ok (Json.obj rf)) =
      ⟨200, rpcResult ((Json.obj rf).lookupKey "id")
              (initResultPayload "chromadb-mcp-server")⟩ := by
  simp [chromaServe, chromaServeTry, hm, methodIs]

theorem chromaServe_notif (B : ChromaBackend) (rf : List (String × Json))
    (hm : (Json.obj rf).lookupKey "method" = some (Json.str "notifications/initialized")) :
    chromaServe B (Except.ok (Json.obj rf)) =
      ⟨200, Json.obj [("jsonrpc", Json.str "2.0")]⟩ := by
  simp [chromaServe, chromaServeTry, hm, methodIs]

theorem chromaServe_unknownMethod (B : ChromaBackend) (rf : List (String × Json))
    (method : Option Json)
    (hm : (Json.obj rf).lookupKey "method" = method)
    (h1 : method ≠ some (Json.str "tools/list"))
    (h2 : method ≠ some (Json.str "tools/call"))
    (h3 : method ≠ some (Json.str "initialize"))
    (h4 : method ≠ some (Json.str "notifications/initialized")) :
    chromaServe B (Except.ok (Json.obj rf)) =
      ⟨200, rpcError ((Json.obj rf).lookupKey "id") (-32601)
              ("Method not found: " ++ jsCoe method)⟩ := by
  simp [chromaServe, chromaServeTry, hm, methodIs_of_ne h1, methodIs_of_ne h2,
        methodIs_of_ne h3, methodIs_of_ne h4]

/-! ### Tool-call try-block lemmas -/

theorem weatherToolsCallTry_unknown (id params : Option Json) (name : Option Json)
    (h : name ≠ some (Json.str "get_weather")) :
    weatherToolsCallTry id params name = .error ("Unknown tool: " ++ jsCoe name) := by
  cases name with
  | none => rfl
  | some j =>
    cases j with
    | str s =>
      have hs : s ≠ "get_weather" := fun h2 => h (by rw [h2])
      simp [weatherToolsCallTry, hs, jsCoe_str]
    | null => rfl
    | bool b => rfl
    | num n => rfl
    | arr l => rfl
    | obj fs => rfl

theorem chromaToolsCallTry_unknown (B : ChromaBackend) (id params : Option Json)
    (name : Option Json)
    (h1 : name ≠ some (Json.str "chroma_query_collection"))
    (h2 : name ≠ some (Json.str "chroma_list_collections"))
    (h3 : name ≠ some (Json.str "chroma_get_collection_info")) :
    chromaToolsCallTry B id params name = .error ("Unknown tool: " ++ jsCoe name) := by
  cases name with
  | none => rfl
  | some j =>
    cases j with
    | str s =>
      have hs1 : s ≠ "chroma_query_collection" := fun h => h1 (by rw [h])
      have hs2 : s ≠ "chroma_list_collections" := fun h => h2 (by rw [h])
      have hs3 : s ≠ "chroma_get_collection_info" := fun h => h3 (by rw [h])
      simp [chromaToolsCallTry, hs1, hs2, hs3, jsCoe_str]
    | null => rfl
    | bool b => rfl
    | num n => rfl
    | arr l => rfl
    | obj fs => rfl

theorem weatherHandleToolsCall_unknown (id params : Option Json) (name : Option Json)
    (hn : jsGet params "name" = Except.ok name)
    (h : name ≠ some (Json.str "get_weather")) :
    weatherHandleToolsCall id params =
      Except.ok (rpcError id (-32603) ("Unknown tool: " ++ jsCoe name)) := by
  simp [weatherHandleToolsCall, hn, weatherToolsCallTry_unknown id params name h]

theorem chromaHandleToolsCall_unknown (B : ChromaBackend) (id params : Option Json)
    (name : Option Json)
    (hn : jsGet params "name" = Except.ok name)
    (h1 : name ≠ some (Json.str "chroma_query_collection"))
    (h2 : name ≠ some (Json.str "chroma_list_collections"))
    (h3 : name ≠ some (Json.str "chroma_get_collection_info")) :
    chromaHandleToolsCall B id params =
      Except.ok (rpcError id (-32603) ("Unknown tool: " ++ jsCoe name)) := by
  simp [chromaHandleToolsCall, hn, chromaToolsCallTry_unknown B id params name h1 h2 h3]

theorem weatherToolsCallTry_ok_shape {id params name : Option Json} {r : Json}
    (h : weatherToolsCallTry id params name = Except.ok r) :
    ∃ t, r = rpcResult id (textContent t) := by
  cases name with
  | none => exact Except.noConfusion h
  | some j =>
    cases j with
    | str s =>
      by_cases hs : s = "get_weather"
      · subst hs
        simp only [weatherToolsCallTry, if_pos rfl] at h
        obtain ⟨args, hargs, h⟩ := bind_eq_ok h
        obtain ⟨loc, hloc, h⟩ := bind_eq_ok h
        exact ⟨_, (Except.ok.inj h).symm⟩
      · rw [weatherToolsCallTry, if_neg hs] at h
        exact Except.noConfusion h
    | null => exact Except.noConfusion h
    | bool b => exact Except.noConfusion h
    | num n => exact Except.noConfusion h
    | arr l => exact Except.noConfusion h
    | obj fs => exact Except.noConfusion h

theorem chromaToolsCallTry_ok_shape {B : ChromaBackend} {id params name : Option Json}
    {r : Json} (h : chromaToolsCallTry B id params name = Except.ok r) :
    ∃ t, r = rpcResult id (textContent t) := by
  cases name with
  | none => exact Except.noConfusion h
  | some j =>
    cases j with
    | str s =>
      by_cases hs1 : s = "chroma_query_collection"
      · subst hs1
        simp only [chromaToolsCallTry, if_pos rfl] at h
        obtain ⟨args, _, h⟩ := bind_eq_ok h
        obtain ⟨c0, _, h⟩ := bind_eq_ok h
        obtain ⟨q, _, h⟩ := bind_eq_ok h
        obtain ⟨n0, _, h⟩ := bind_eq_ok h
        obtain ⟨u, _, h⟩ := bind_eq_ok h
        obtain ⟨res, _, h⟩ := bind_eq_ok h
        exact ⟨_, (Except.ok.inj h).symm⟩
      · by_cases hs2 : s = "chroma_list_collections"
        · subst hs2
          simp only [chromaToolsCallTry, if_neg hs1, if_pos rfl] at h
          obtain ⟨cs, _, h⟩ := bind_eq_ok h
          exact ⟨_, (Except.ok.inj h).symm⟩
        · by_cases hs3 : s = "chroma_get_collection_info"
          · subst hs3
            simp only [chromaToolsCallTry, if_neg hs1, if_neg hs2, if_pos rfl] at h
            obtain ⟨args, _, h⟩ := bind_eq_ok h
            obtain ⟨c, _, h⟩ := bind_eq_ok h
            obtain ⟨u, _, h⟩ := bind_eq_ok h
            obtain ⟨n, _, h⟩ := bind_eq_ok h
            exact ⟨_, (Except.ok.inj h).symm⟩
          · rw [chromaToolsCallTry, if_neg hs1, if_neg hs2, if_neg hs3] at h
            exact Except.noConfusion h
    | null => exact Except.noConfusion h
    | bool b => exact Except.noConfusion h
    | num n => exact Except.noConfusion h
    | arr l => exact Except.noConfusion h
    | obj fs => exact Except.noConfusion h

/-! ### Success-envelope shape -/

theorem textContent_shape (id : Option Json) (t : String) :
    firstContentType (rpcResult id (textContent t)) = some (Json.str "text") ∧
    firstContentText (rpcResult id (textContent t)) = some (Json.str t) ∧
    isStrB (firstContentText (rpcResult id (textContent t))) = true ∧
    (rpcResult id (textContent t)).lookupKey "error" = none := by
  have h1 : (rpcResult id (textContent t)).lookupKey "result" = some (textContent t) :=
    rpcResult_lookup_result id _
  refine ⟨?_, ?_, ?_, by simp⟩
  · simp only [firstContentType, h1]
    rfl
  · simp only [firstContentText, h1]
    rfl
  · simp only [isStrB, firstContentText, h1]
    rfl

theorem weatherHandleToolsCall_shape (id params name : Option Json)
    (hn : jsGet params "name" = Except.ok name) :
    ∃ body, weatherHandleToolsCall id params = Except.ok body ∧
      exactlyOneResultOrError body = true ∧ body.lookupKey "id" = id := by
  cases htry : weatherToolsCallTry id params name with
  | ok r =>
    obtain ⟨t, rfl⟩ := weatherToolsCallTry_ok_shape htry
    exact ⟨_, by simp [weatherHandleToolsCall, hn, htry],
           rpcResult_exactlyOne id (textContent t), by simp⟩
  | error e =>
    exact ⟨rpcError id (-32603) e, by simp [weatherHandleToolsCall, hn, htry],
           rpcError_exactlyOne id (-32603) e, by simp⟩

theorem chromaHandleToolsCall_shape (B : ChromaBackend) (id params name : Option Json)
    (hn : jsGet params "name" = Except.ok name) :
    ∃ body, chromaHandleToolsCall B id params = Except.ok body ∧
      exactlyOneResultOrError body = true ∧ body.lookupKey "id" = id := by
  cases htry : chromaToolsCallTry B id params name with
  | ok r =>
    obtain ⟨t, rfl⟩ := chromaToolsCallTry_ok_shape htry
    exact ⟨_, by simp [chromaHandleToolsCall, hn, htry],
           rpcResult_exactlyOne id (textContent t), by simp⟩
  | error e =>
    exact ⟨rpcError id (-32603) e, by simp [chromaHandleToolsCall, hn, htry],
           rpcError_exactlyOne id (-32603) e, by simp⟩

/-! ### Store-model lemmas -/

theorem countKey_nil (s : String) : countKey [] s = 0 := rfl

theorem countKey_cons (kv : String × Json) (tl : EsStore) (s : String) :
    countKey (kv :: tl) s =
      if kv.1 == s then countKey tl s + 1 else countKey tl s := by
  by_cases h : kv.1 == s <;> simp [countKey, List.filter_cons, h]

theorem countKey_append (l1 l2 : EsStore) (s : String) :
    countKey (l1 ++ l2) s = countKey l1 s + countKey l2 s := by
  simp [countKey, List.filter_append]

theorem countKey_eq_zero_of_not_mem {store : EsStore} {s : String}
    (h : s ∉ store.map Prod.fst) : countKey store s = 0 := by
  induction store with
  | nil => rfl
  | cons kv tl ih =>
    simp only [List.map_cons, List.mem_cons, not_or] at h
    have hb : (kv.1 == s) = false := by
      simp only [beq_eq_false_iff_ne, ne_eq]
      exact fun he => h.1 he.symm
    rw [countKey_cons, hb]
    simpa using ih h.2

theorem mem_keys_of_countKey_pos {store : EsStore} {s : String}
    (h : 0 < countKey store s) : s ∈ store.map Prod.fst := by
  by_contra hmem
  rw [countKey_eq_zero_of_not_mem hmem] at h
  exact Nat.lt_irrefl 0 h

theorem countKey_pos_of_mem_keys {store : EsStore} {s : String}
    (h : s ∈ store.map Prod.fst) : 0 < countKey store s := by
  induction store with
  | nil => simp at h
  | cons kv tl ih =>
    rw [countKey_cons]
    by_cases hb : kv.1 == s
    · simp [hb]
    · simp only [List.map_cons, List.mem_cons] at h
      rcases h with h | h
      · exact absurd (by simp [h]) hb
      · simpa [hb] using ih h

theorem countKey_map_replace (store : EsStore) (s : String) (d : Json) :
    countKey (store.map (fun kv => if kv.1 = s then (s, d) else kv)) s =
      countKey store s := by
  induction store with
  | nil => rfl
  | cons kv tl ih =>
    by_cases h : kv.1 = s
    · simp only [List.map_cons, if_pos h, countKey_cons]
      have h1 : ((s, d).1 == s) = true := by simp
      have h2 : (kv.1 == s) = true := by simp [h]
      rw [h1, h2, ih]
    · simp only [List.map_cons, if_neg h, countKey_cons]
      have h2 : (kv.1 == s) = false := by simp [h]
      rw [h2, ih]

theorem contains_keys_iff {store : EsStore} {s : String} :
    (store.map Prod.fst).contains s = true ↔ s ∈ store.map Prod.fst :=
  List.elem_iff

theorem countKey_esPut_self (store : EsStore) (s : String) (d : Json) :
    countKey (esPut store s d) s =
      if countKey store s = 0 then 1 else countKey store s := by
  by_cases hc : (store.map Prod.fst).contains s = true
  · have hmem := contains_keys_iff.mp hc
    have hpos := countKey_pos_of_mem_keys hmem
    rw [esPut, if_pos hc, countKey_map_replace]
    rw [if_neg (Nat.pos_iff_ne_zero.mp hpos)]
  · have hmem : s ∉ store.map Prod.fst := fun h => hc (contains_keys_iff.mpr h)
    have hz := countKey_eq_zero_of_not_mem hmem
    rw [esPut, if_neg hc, countKey_append, hz, if_pos rfl]
    simp [countKey_cons, countKey_nil]

theorem countKey_le_one_of_nodup {store : EsStore}
    (h : (store.map Prod.fst).Nodup) (s : String) : countKey store s ≤ 1 := by
  induction store with
  | nil => exact Nat.zero_le 1
  | cons kv tl ih =>
    rw [List.map_cons, List.nodup_cons] at h
    rw [countKey_cons]
    by_cases hb : (kv.1 == s) = true
    · have he : kv.1 = s := by simpa using hb
      have hz : countKey tl s = 0 :=
        countKey_eq_zero_of_not_mem (he ▸ h.1)
      simp [hb, hz]
    · rw [Bool.not_eq_true] at hb
      rw [hb]
      simpa using ih h.2

theorem mem_keys_esPut (store : EsStore) (s : String) (d : Json) :
    s ∈ (esPut store s d).map Prod.fst := by
  apply mem_keys_of_countKey_pos
  rw [countKey_esPut_self]
  by_cases hz : countKey store s = 0
  · simp [hz]
  · rw [if_neg hz]
    exact Nat.pos_of_ne_zero hz

theorem map_replace_id_of_not_mem {store : EsStore} {s : String} (d : Json)
    (h : s ∉ store.map Prod.fst) :
    store.map (fun kv => if kv.1 = s then (s, d) else kv) = store := by
  induction store with
  | nil => rfl
  | cons kv tl ih =>
    simp only [List.map_cons, List.mem_cons, not_or] at h
    rw [List.map_cons]
    rw [if_neg (fun he => h.1 he.symm), ih h.2]

theorem esPut_of_contains {store : EsStore} {s : String} (d : Json)
    (hc : (store.map Prod.fst).contains s = true) :
    esPut store s d = store.map (fun kv => if kv.1 = s then (s, d) else kv) := by
  rw [esPut, if_pos hc]

theorem esPut_of_not_contains {store : EsStore} {s : String} (d : Json)
    (hc : ¬ (store.map Prod.fst).contains s = true) :
    esPut store s d = store ++ [(s, d)] := by
  rw [esPut, if_neg hc]

theorem esPut_idem (store : EsStore) (s : String) (d : Json) :
    esPut (esPut store s d) s d = esPut store s d := by
  have hc2 : ((esPut store s d).map Prod.fst).contains s = true :=
    contains_keys_iff.mpr (mem_keys_esPut store s d)
  rw [esPut_of_contains d hc2]
  by_cases hc : (store.map Prod.fst).contains s = true
  · rw [esPut_of_contains d hc, List.map_map]
    apply List.map_congr_left
    intro kv _
    by_cases h : kv.1 = s <;> simp [Function.comp, h]
  · rw [esPut_of_not_contains d hc, List.map_append,
        map_replace_id_of_not_mem d (fun h => hc (contains_keys_iff.mpr h))]
    simp

theorem listedTools_rpcResult (id : Option Json) (tools : Json) :
    listedTools (rpcResult id (Json.obj [("tools", tools)])) = some tools := by
  rw [listedTools, rpcResult_lookup_result]
  rfl

/-! ## Claim theorems -/

/-- C1: a `tools/call` request whose `params.name` matches no registered tool is
answered (HTTP 200) with an envelope carrying `error.code = -32603`, no `result`
key, and the request's id; the `Unknown tool` exception thrown by the handler is
caught inside the dispatch (the serve function yields a normal response, never
the outer 500 path), for both hand-rolled HTTP servers. -/
theorem unknown_tool_returns_internal_error_envelope
    (B : ChromaBackend) (rf : List (String × Json)) (name : Option Json)
    (hm : (Json.obj rf).lookupKey "method" = some (Json.str "tools/call"))
    (hn : jsGet ((Json.obj rf).lookupKey "params") "name" = Except.ok name)
    (hw : name ≠ some (Json.str "get_weather"))
    (hc1 : name ≠ some (Json.str "chroma_query_collection"))
    (hc2 : name ≠ some (Json.str "chroma_list_collections"))
    (hc3 : name ≠ some (Json.str "chroma_get_collection_info")) :
    weatherServe (Except.ok (Json.obj rf)) =
      ⟨200, rpcError ((Json.obj rf).lookupKey "id") (-32603)
              ("Unknown tool: " ++ jsCoe name)⟩ ∧
    chromaServe B (Except.ok (Json.obj rf)) =
      ⟨200, rpcError ((Json.obj rf).lookupKey "id") (-32603)
              ("Unknown tool: " ++ jsCoe name)⟩ ∧
    errorCodeOf (rpcError ((Json.obj rf).lookupKey "id") (-32603)
        ("Unknown tool: " ++ jsCoe name)) = some (Json.num (-32603)) ∧
    (rpcError ((Json.obj rf).lookupKey "id") (-32603)
        ("Unknown tool: " ++ jsCoe name)).lookupKey "result" = none ∧
    (rpcError ((Json.obj rf).lookupKey "id") (-32603)
        ("Unknown tool: " ++ jsCoe name)).lookupKey "id" =
      (Json.obj rf).lookupKey "id" := by
  refine ⟨?_, ?_, by simp, by simp, by simp⟩
  · rw [weatherServe_toolsCall rf hm,
        weatherHandleToolsCall_unknown _ _ name hn hw]
  · rw [chromaServe_toolsCall B rf hm,
        chromaHandleToolsCall_unknown B _ _ name hn hc1 hc2 hc3]

/-- Witness for C1 at the concrete `does_not_exist` request. -/
theorem unknown_tool_returns_internal_error_envelope_witness :
    (Json.obj demoUnknownToolReq).lookupKey "method" = some (Json.str "tools/call") ∧
    weatherServe (Except.ok (Json.obj demoUnknownToolReq)) =
      ⟨200, rpcError ((Json.obj demoUnknownToolReq).lookupKey "id") (-32603)
              ("Unknown tool: " ++ jsCoe (some (Json.str "does_not_exist")))⟩ :=
  ⟨rfl,
   (unknown_tool_returns_internal_error_envelope demoChromaBackend demoUnknownToolReq
      (some (Json.str "does_not_exist")) rfl rfl
      (by simp) (by simp) (by simp) (by simp)).1⟩

/-- C4: the tools registry of each hand-rolled server is a constant: the
`tools/list` payload is non-empty, its entries carry pairwise-distinct names,
and any two `tools/list` calls (whatever their request ids) return the
identical descriptor set. -/
theorem tools_list_nonempty_unique_stable :
    (∀ id1 id2 : Option Json,
       listedTools (weatherHandleToolsList id1) = listedTools (weatherHandleToolsList id2) ∧
       listedTools (chromaHandleToolsList id1) = listedTools (chromaHandleToolsList id2)) ∧
    (∀ id : Option Json,
       listedTools (weatherHandleToolsList id) = some weatherTOOLS ∧
       listedTools (chromaHandleToolsList id) = some chromaTOOLS) ∧
    toolNamesOf weatherTOOLS = ["get_weather"] ∧
    toolNamesOf chromaTOOLS =
      ["chroma_query_collection", "chroma_list_collections", "chroma_get_collection_info"] ∧
    (toolNamesOf weatherTOOLS).Nodup ∧
    (toolNamesOf chromaTOOLS).Nodup ∧
    toolCount weatherTOOLS = 1 ∧ toolCount chromaTOOLS = 3 ∧
    (∀ rf : List (String × Json),
       (Json.obj rf).lookupKey "method" = some (Json.str "tools/list") →
       listedTools (weatherServe (Except.ok (Json.obj rf))).body = some weatherTOOLS ∧
       ∀ B : ChromaBackend,
         listedTools (chromaServe B (Except.ok (Json.obj rf))).body = some chromaTOOLS) := by
  refine ⟨?_, ?_, by decide, by decide, by decide, by decide, by decide, by decide, ?_⟩
  · intro id1 id2
    constructor <;>
      simp only [weatherHandleToolsList, chromaHandleToolsList, listedTools_rpcResult]
  · intro id
    constructor <;>
      simp only [weatherHandleToolsList, chromaHandleToolsList, listedTools_rpcResult]
  · intro rf hm
    refine ⟨?_, fun B => ?_⟩
    · rw [weatherServe_toolsList rf hm]
      simp only [weatherHandleToolsList, listedTools_rpcResult]
    · rw [chromaServe_toolsList B rf hm]
      simp only [chromaHandleToolsList, listedTools_rpcResult]

/-- Witness for C4 at the concrete `tools/list` request. -/
theorem tools_list_nonempty_unique_stable_witness :
    (Json.obj demoToolsListReq).lookupKey "method" = some (Json.str "tools/list") ∧
    listedTools (weatherServe (Except.ok (Json.obj demoToolsListReq))).body =
      some weatherTOOLS :=
  ⟨rfl, ((tools_list_nonempty_unique_stable.2.2.2.2.2.2.2.2)
            demoToolsListReq rfl).1⟩

/-- C6: a well-formed request whose method is none of the four handled ones is
answered with HTTP 200 and an envelope carrying `error.code = -32601`
(method not found) — not `-32603` and not an HTTP-level failure — echoing the
request's id, with no `result` key. -/
theorem unknown_method_returns_method_not_found
    (B : ChromaBackend) (rf : List (String × Json)) (method : Option Json)
    (hm : (Json.obj rf).lookupKey "method" = method)
    (h1 : method ≠ some (Json.str "tools/list"))
    (h2 : method ≠ some (Json.str "tools/call"))
    (h3 : method ≠ some (Json.str "initialize"))
    (h4 : method ≠ some (Json.str "notifications/initialized")) :
    weatherServe (Except.ok (Json.obj rf)) =
      ⟨200, rpcError ((Json.obj rf).lookupKey "id") (-32601)
              ("Method not found: " ++ jsCoe method)⟩ ∧
    chromaServe B (Except.ok (Json.obj rf)) =
      ⟨200, rpcError ((Json.obj rf).lookupKey "id") (-32601)
              ("Method not found: " ++ jsCoe method)⟩ ∧
    errorCodeOf (rpcError ((Json.obj rf).lookupKey "id") (-32601)
        ("Method not found: " ++ jsCoe method)) = some (Json.num (-32601)) ∧
    (Json.num (-32601) : Json) ≠ Json.num (-32603) ∧
    (rpcError ((Json.obj rf).lookupKey "id") (-32601)
        ("Method not found: " ++ jsCoe method)).lookupKey "id" =
      (Json.obj rf).lookupKey "id" ∧
    (rpcError ((Json.obj rf).lookupKey "id") (-32601)
        ("Method not found: " ++ jsCoe method)).lookupKey "result" = none :=
  ⟨weatherServe_unknownMethod rf method hm h1 h2 h3 h4,
   chromaServe_unknownMethod B rf method hm h1 h2 h3 h4,
   by simp, by simp, by simp, by simp⟩

/-- Witness for C6 at the concrete `resources/list` request. -/
theorem unknown_method_returns_method_not_found_witness :
    (Json.obj demoBadMethodReq).lookupKey "method" = some (Json.str "resources/list") ∧
    weatherServe (Except.ok (Json.obj demoBadMethodReq)) =
      ⟨200, rpcError ((Json.obj demoBadMethodReq).lookupKey "id") (-32601)
              ("Method not found: " ++ jsCoe (some (Json.str "resources/list")))⟩ :=
  ⟨rfl,
   (unknown_method_returns_method_not_found demoChromaBackend demoBadMethodReq
      (some (Json.str "resources/list")) rfl
      (by simp) (by simp) (by simp) (by simp)).1⟩

/-- C7: a `POST /mcp` body that `JSON.parse` rejects is answered with HTTP 500
and a `-32603` error envelope, on both hand-rolled servers; the dispatch is a
pure function of the single request (no state survives a request), so any
subsequent request — here any `tools/list` — is still served normally. -/
theorem malformed_body_yields_500_internal_error (B : ChromaBackend) (e : String) :
    weatherServe (Except.error e) = ⟨500, rpcCatchAll e⟩ ∧
    chromaServe B (Except.error e) = ⟨500, rpcCatchAll e⟩ ∧
    errorCodeOf (rpcCatchAll e) = some (Json.num (-32603)) ∧
    (∀ rf : List (String × Json),
       (Json.obj rf).lookupKey "method" = some (Json.str "tools/list") →
       weatherServe (Except.ok (Json.obj rf)) =
         ⟨200, weatherHandleToolsList ((Json.obj rf).lookupKey "id")⟩ ∧
       chromaServe B (Except.ok (Json.obj rf)) =
         ⟨200, chromaHandleToolsList ((Json.obj rf).lookupKey "id")⟩) :=
  ⟨weatherServe_parseError e, chromaServe_parseError B e, rfl,
   fun rf hm => ⟨weatherServe_toolsList rf hm, chromaServe_toolsList B rf hm⟩⟩

/-- Witness for C7 at a concrete unparseable body and a concrete follow-up
request. -/
theorem malformed_body_yields_500_internal_error_witness :
    weatherServe (Except.error "Unexpected token x in JSON at position 0") =
      ⟨500, rpcCatchAll "Unexpected token x in JSON at position 0"⟩ ∧
    weatherServe (Except.ok (Json.obj demoToolsListReq)) =
      ⟨200, weatherHandleToolsList ((Json.obj demoToolsListReq).lookupKey "id")⟩ :=
  ⟨(malformed_body_yields_500_internal_error demoChromaBackend
      "Unexpected token x in JSON at position 0").1,
   ((malformed_body_yields_500_internal_error demoChromaBackend
      "Unexpected token x in JSON at position 0").2.2.2 demoToolsListReq rfl).1⟩

/-- C9: a `tools/call` request carrying an id but whose `params` member is
absent (or `null`) makes the `params.name` interpolation in the log line —
which sits before the handler's try block — throw; the exception reaches only
the outer transport catch, which answers HTTP 500 with the catch-all envelope
whose `id` is the literal `null`, discarding the request's id. -/
theorem missing_params_discards_request_id
    (B : ChromaBackend) (rf : List (String × Json)) (idv : Json) (m : String)
    (hm : (Json.obj rf).lookupKey "method" = some (Json.str "tools/call"))
    (hid : (Json.obj rf).lookupKey "id" = some idv)
    (hnull : idv ≠ Json.null)
    (hp : jsGet ((Json.obj rf).lookupKey "params") "name" = Except.error m) :
    weatherServe (Except.ok (Json.obj rf)) = ⟨500, rpcCatchAll m⟩ ∧
    chromaServe B (Except.ok (Json.obj rf)) = ⟨500, rpcCatchAll m⟩ ∧
    (rpcCatchAll m).lookupKey "id" = some Json.null ∧
    (rpcCatchAll m).lookupKey "id" ≠ (Json.obj rf).lookupKey "id" := by
  refine ⟨?_, ?_, rfl, ?_⟩
  · rw [weatherServe_toolsCall rf hm]
    simp [weatherHandleToolsCall, hp]
  · rw [chromaServe_toolsCall B rf hm]
    simp [chromaHandleToolsCall, hp]
  · rw [hid]
    show some Json.null ≠ some idv
    exact fun h => hnull (Option.some.inj h).symm

/-- Witness for C9 at the concrete params-less request with id 7. -/
theorem missing_params_discards_request_id_witness :
    (Json.obj demoNoParamsReq).lookupKey "id" = some (Json.num 7) ∧
    weatherServe (Except.ok (Json.obj demoNoParamsReq)) =
      ⟨500, rpcCatchAll "Cannot read properties of undefined (reading name)"⟩ :=
  ⟨rfl,
   (missing_params_discards_request_id demoChromaBackend demoNoParamsReq
      (Json.num 7) "Cannot read properties of undefined (reading name)"
      rfl rfl (by simp) rfl).1⟩

/-- C10: the `get_weather` handler is pure: for every location string it
performs no external call and answers exactly the text
`It\x27s always sunny in <location>` in a success envelope with no `error` key
(being a function of its arguments, it returns identical responses on
identical calls). -/
theorem get_weather_pure_text (id : Option Json) (loc : String) :
    weatherHandleToolsCall id (some (Json.obj
      [("name", Json.str "get_weather"),
       ("arguments", Json.obj [("location", Json.str loc)])])) =
      Except.ok (rpcResult id (textContent ("It\x27s always sunny in " ++ loc))) ∧
    (rpcResult id (textContent ("It\x27s always sunny in " ++ loc))).lookupKey
        "error" = none ∧
    firstContentText (rpcResult id (textContent ("It\x27s always sunny in " ++ loc))) =
      some (Json.str ("It\x27s always sunny in " ++ loc)) := by
  refine ⟨?_, by simp, (textContent_shape id _).2.1⟩
  simp [weatherHandleToolsCall, weatherToolsCallTry, Json.lookupKey, List.lookup,
        jsGet, jsCoe_str]

/-- C2: a `tools/call` of a registered tool with well-formed arguments whose
backend calls succeed is answered with a success envelope whose
`result.content[0].type` is `"text"` with a string payload and no `error`
key — shown for `get_weather` and for each of the three ChromaDB tools. -/
theorem registered_tool_success_returns_text_content
    (B : ChromaBackend) (id : Option Json) (loc : String)
    (pfW afW pf1 af1 pf2 pf3 af3 : List (String × Json))
    (qr : ChromaQueryResult) (names : List String) (k : Int)
    (hw1 : (Json.obj pfW).lookupKey "name" = some (Json.str "get_weather"))
    (hw2 : (Json.obj pfW).lookupKey "arguments" = some (Json.obj afW))
    (hw3 : (Json.obj afW).lookupKey "location" = some (Json.str loc))
    (h1n : (Json.obj pf1).lookupKey "name" = some (Json.str "chroma_query_collection"))
    (h1a : (Json.obj pf1).lookupKey "arguments" = some (Json.obj af1))
    (h1g : B.getCollection
        (some (((Json.obj af1).lookupKey "collection").getD (Json.str "products"))) =
      Except.ok ())
    (h1q : B.query
        (some (((Json.obj af1).lookupKey "collection").getD (Json.str "products")))
        ((Json.obj af1).lookupKey "query")
        (some (((Json.obj af1).lookupKey "n_results").getD (Json.num 5))) =
      Except.ok qr)
    (h2n : (Json.obj pf2).lookupKey "name" = some (Json.str "chroma_list_collections"))
    (h2l : B.listCollections = Except.ok names)
    (h3n : (Json.obj pf3).lookupKey "name" = some (Json.str "chroma_get_collection_info"))
    (h3a : (Json.obj pf3).lookupKey "arguments" = some (Json.obj af3))
    (h3g : B.getCollection ((Json.obj af3).lookupKey "collection") = Except.ok ())
    (h3c : B.count ((Json.obj af3).lookupKey "collection") = Except.ok k) :
    (weatherHandleToolsCall id (some (Json.obj pfW)) =
       Except.ok (rpcResult id (textContent ("It\x27s always sunny in " ++ loc))) ∧
     chromaHandleToolsCall B id (some (Json.obj pf1)) =
       Except.ok (rpcResult id
         (textContent (jsonStringify (Json.arr (chromaFormat qr))))) ∧
     chromaHandleToolsCall B id (some (Json.obj pf2)) =
       Except.ok (rpcResult id
         (textContent (jsonStringify (Json.arr (names.map Json.str))))) ∧
     chromaHandleToolsCall B id (some (Json.obj pf3)) =
       Except.ok (rpcResult id
         (textContent (jsonStringify (jsObj
           [("name", (Json.obj af3).lookupKey "collection"),
            ("count", some (Json.num k))]))))) ∧
    (∀ t : String,
       firstContentType (rpcResult id (textContent t)) = some (Json.str "text") ∧
       isStrB (firstContentText (rpcResult id (textContent t))) = true ∧
       (rpcResult id (textContent t)).lookupKey "error" = none) := by
  refine ⟨⟨?_, ?_, ?_, ?_⟩, fun t =>
    ⟨(textContent_shape id t).1, (textContent_shape id t).2.2.1,
     (textContent_shape id t).2.2.2⟩⟩
  · simp [weatherHandleToolsCall, weatherToolsCallTry, hw1, hw2, hw3, jsCoe_str]
  · simp [chromaHandleToolsCall, chromaToolsCallTry, h1n, h1a, h1g, h1q]
  · simp [chromaHandleToolsCall, chromaToolsCallTry, h2n, h2l]
  · simp [chromaHandleToolsCall, chromaToolsCallTry, h3n, h3a, h3g, h3c]

/-- Witness for C2 at concrete requests against the all-succeeding backend. -/
theorem registered_tool_success_returns_text_content_witness :
    demoChromaBackend.listCollections = Except.ok ["products"] ∧
    weatherHandleToolsCall (some (Json.num 2)) (some (Json.obj demoGetWeatherParams)) =
      Except.ok (rpcResult (some (Json.num 2))
        (textContent ("It\x27s always sunny in " ++ "Paris"))) ∧
    chromaHandleToolsCall demoChromaBackend (some (Json.num 2))
        (some (Json.obj demoChromaQueryParams)) =
      Except.ok (rpcResult (some (Json.num 2))
        (textContent (jsonStringify (Json.arr (chromaFormat demoQueryResult))))) :=
  ⟨rfl,
   (registered_tool_success_returns_text_content demoChromaBackend
      (some (Json.num 2)) "Paris"
      demoGetWeatherParams [("location", Json.str "Paris")]
      demoChromaQueryParams [("query", Json.str "laptop")]
      demoChromaListParams demoChromaInfoParams
      [("collection", Json.str "products")]
      demoQueryResult ["products"] 8
      rfl rfl rfl rfl rfl rfl rfl rfl rfl rfl rfl rfl rfl).1.1,
   (registered_tool_success_returns_text_content demoChromaBackend
      (some (Json.num 2)) "Paris"
      demoGetWeatherParams [("location", Json.str "Paris")]
      demoChromaQueryParams [("query", Json.str "laptop")]
      demoChromaListParams demoChromaInfoParams
      [("collection", Json.str "products")]
      demoQueryResult ["products"] 8
      rfl rfl rfl rfl rfl rfl rfl rfl rfl rfl rfl rfl rfl).1.2.1⟩

/-- C5: the hand-rolled dispatchers run the named tool handler for any
arguments object whatsoever — nothing is checked against the declared input
schema — so the response is exactly determined by the backend call's outcome:
its value on success, its error message in a `-32603` envelope on failure. -/
theorem arguments_not_validated_backend_decides
    (B : ChromaBackend) (E : EsBackend) (id : Option Json)
    (pf af pfE afE : List (String × Json))
    (hn : (Json.obj pf).lookupKey "name" = some (Json.str "chroma_query_collection"))
    (ha : (Json.obj pf).lookupKey "arguments" = some (Json.obj af))
    (hnE : (Json.obj pfE).lookupKey "name" = some (Json.str "elasticsearch_search"))
    (haE : (Json.obj pfE).lookupKey "arguments" = some (Json.obj afE)) :
    chromaHandleToolsCall B id (some (Json.obj pf)) =
      Except.ok
        (match
           B.getCollection
             (some (((Json.obj af).lookupKey "collection").getD (Json.str "products")))
             >>= fun _ =>
           B.query
             (some (((Json.obj af).lookupKey "collection").getD (Json.str "products")))
             ((Json.obj af).lookupKey "query")
             (some (((Json.obj af).lookupKey "n_results").getD (Json.num 5))) with
         | .ok r => rpcResult id (textContent (jsonStringify (Json.arr (chromaFormat r))))
         | .error e => rpcError id (-32603) e) ∧
    esHandleToolsCall E id (some (Json.obj pfE)) =
      Except.ok
        (match E.search ((Json.obj afE).lookupKey "index")
                 ((Json.obj afE).lookupKey "query")
                 (some (((Json.obj afE).lookupKey "size").getD (Json.num 10))) with
         | .ok r => rpcResult id (textContent (jsonStringify (Json.obj
             [("total", r.total),
              ("hits", Json.arr (r.hits.map (fun hit => Json.obj
                 [("id", Json.str hit.hitId), ("score", hit.score),
                  ("source", hit.source)])))])))
         | .error e => rpcError id (-32603) e) := by
  constructor
  · cases hg : B.getCollection
        (some (((Json.obj af).lookupKey "collection").getD (Json.str "products"))) with
    | error e => simp [chromaHandleToolsCall, chromaToolsCallTry, hn, ha, hg]
    | ok u =>
      cases hq : B.query
          (some (((Json.obj af).lookupKey "collection").getD (Json.str "products")))
          ((Json.obj af).lookupKey "query")
          (some (((Json.obj af).lookupKey "n_results").getD (Json.num 5))) with
      | error e => simp [chromaHandleToolsCall, chromaToolsCallTry, hn, ha, hg, hq]
      | ok r => simp [chromaHandleToolsCall, chromaToolsCallTry, hn, ha, hg, hq]
  · cases hs : E.search ((Json.obj afE).lookupKey "index")
        ((Json.obj afE).lookupKey "query")
        (some (((Json.obj afE).lookupKey "size").getD (Json.num 10))) with
    | error e => simp [esHandleToolsCall, esToolsCallTry, hnE, haE, hs]
    | ok r => simp [esHandleToolsCall, esToolsCallTry, hnE, haE, hs]

/-- Witness for C5: an `elasticsearch_search` call whose arguments object is
empty (both required fields missing) still reaches the backend; against the
failing backend the backend's own message comes back in the envelope. -/
theorem arguments_not_validated_backend_decides_witness :
    (Json.obj demoEsSearchParams).lookupKey "arguments" = some (Json.obj []) ∧
    esHandleToolsCall downEsBackend (some (Json.num 3))
        (some (Json.obj demoEsSearchParams)) =
      Except.ok
        (match downEsBackend.search ((Json.obj ([] : List (String × Json))).lookupKey "index")
                 ((Json.obj ([] : List (String × Json))).lookupKey "query")
                 (some (((Json.obj ([] : List (String × Json))).lookupKey "size").getD
                   (Json.num 10))) with
         | .ok r => rpcResult (some (Json.num 3)) (textContent (jsonStringify (Json.obj
             [("total", r.total),
              ("hits", Json.arr (r.hits.map (fun hit => Json.obj
                 [("id", Json.str hit.hitId), ("score", hit.score),
                  ("source", hit.source)])))])))
         | .error e => rpcError (some (Json.num 3)) (-32603) e) :=
  ⟨rfl,
   (arguments_not_validated_backend_decides downChromaBackend downEsBackend
      (some (Json.num 3)) demoChromaQueryParams [("query", Json.str "laptop")]
      demoEsSearchParams [] rfl rfl rfl rfl).2⟩

/-- C8: two identical `elasticsearch_index_document` calls carrying the same
explicit document id leave the store with exactly one document under that id:
the write is an idempotent map insert, not an append.  The dispatch and
argument extraction follow the handler; the store transition is the
spec-modelled `esStoreIndex` (the Elasticsearch engine is external to the
repository). -/
theorem index_document_explicit_id_idempotent
    (store : EsStore) (f1 f2 : String) (id1 id2 : Option Json)
    (pf af : List (String × Json)) (s : String)
    (hnodup : (store.map Prod.fst).Nodup)
    (hn : (Json.obj pf).lookupKey "name" =
      some (Json.str "elasticsearch_index_document"))
    (ha : (Json.obj pf).lookupKey "arguments" = some (Json.obj af))
    (hid : (Json.obj af).lookupKey "id" = some (Json.str s)) :
    Except.map Prod.fst (esServeIndexCall store f1 id1 (some (Json.obj pf))) =
      Except.ok (esPut store s (esDocOf af)) ∧
    Except.map Prod.fst (esServeIndexCall (esPut store s (esDocOf af)) f2 id2
        (some (Json.obj pf))) =
      Except.ok (esPut (esPut store s (esDocOf af)) s (esDocOf af)) ∧
    esPut (esPut store s (esDocOf af)) s (esDocOf af) = esPut store s (esDocOf af) ∧
    countKey (esPut (esPut store s (esDocOf af)) s (esDocOf af)) s = 1 := by
  refine ⟨?_, ?_, esPut_idem store s (esDocOf af), ?_⟩
  · simp [esServeIndexCall, esServeIndexCallTry, hn, ha, hid, esStoreIndex,
          esDocOf, Except.map]
  · simp [esServeIndexCall, esServeIndexCallTry, hn, ha, hid, esStoreIndex,
          esDocOf, Except.map]
  · have hle := countKey_le_one_of_nodup hnodup s
    rw [countKey_esPut_self, countKey_esPut_self]
    by_cases hz : countKey store s = 0
    · simp [hz]
    · have h1 : countKey store s = 1 :=
        Nat.le_antisymm hle (Nat.pos_of_ne_zero hz)
      simp [hz, h1]

/-- Witness for C8: indexing the demo document twice under id `d42` into the
empty store leaves exactly one `d42` document. -/
theorem index_document_explicit_id_idempotent_witness :
    (Json.obj demoEsIndexParams).lookupKey "name" =
      some (Json.str "elasticsearch_index_document") ∧
    countKey (esPut (esPut [] "d42" (esDocOf
        [("index", Json.str "products"),
         ("document", Json.obj [("name", Json.str "Dell XPS 15")]),
         ("id", Json.str "d42")])) "d42" (esDocOf
        [("index", Json.str "products"),
         ("document", Json.obj [("name", Json.str "Dell XPS 15")]),
         ("id", Json.str "d42")])) "d42" = 1 :=
  ⟨rfl,
   (index_document_explicit_id_idempotent [] "g1" "g2" (some (Json.num 4))
      (some (Json.num 5)) demoEsIndexParams
      [("index", Json.str "products"),
       ("document", Json.obj [("name", Json.str "Dell XPS 15")]),
       ("id", Json.str "d42")]
      "d42" (by simp) rfl rfl rfl).2.2.2⟩

/-- C3 counterexample: on a `notifications/initialized` request carrying
id 5, both hand-rolled servers emit the body `{jsonrpc: "2.0"}` — a body with
neither a `result` nor an `error` member and no `id` — so the claimed
invariant (exactly one of result/error, id echoed) fails on the
acknowledgement branch. -/
theorem notifications_ack_lacks_result_error_and_id :
    weatherServe (Except.ok (Json.obj demoNotifReq)) =
      ⟨200, Json.obj [("jsonrpc", Json.str "2.0")]⟩ ∧
    chromaServe demoChromaBackend (Except.ok (Json.obj demoNotifReq)) =
      ⟨200, Json.obj [("jsonrpc", Json.str "2.0")]⟩ ∧
    (Json.obj demoNotifReq).lookupKey "id" = some (Json.num 5) ∧
    exactlyOneResultOrError (Json.obj [("jsonrpc", Json.str "2.0")]) = false ∧
    (Json.obj [("jsonrpc", Json.str "2.0")]).lookupKey "result" = none ∧
    (Json.obj [("jsonrpc", Json.str "2.0")]).lookupKey "error" = none ∧
    (Json.obj [("jsonrpc", Json.str "2.0")]).lookupKey "id" = none :=
  ⟨weatherServe_notif demoNotifReq rfl,
   chromaServe_notif demoChromaBackend demoNotifReq rfl,
   rfl, rfl, rfl, rfl, rfl⟩

/-- C3 (amended): every response to the four request-bearing branches
(`tools/list`, `tools/call` whose `params.name` access does not throw,
`initialize`, unknown method) carries exactly one of `result`/`error` and
echoes the request's id; the `notifications/initialized` acknowledgement
body instead carries neither member and no id. -/
theorem response_envelope_exclusive_on_request_branches
    (B : ChromaBackend)
    (rf1 rf2 rf3 rf4 : List (String × Json)) (name2 method4 : Option Json)
    (hm1 : (Json.obj rf1).lookupKey "method" = some (Json.str "tools/list"))
    (hm2 : (Json.obj rf2).lookupKey "method" = some (Json.str "tools/call"))
    (hn2 : jsGet ((Json.obj rf2).lookupKey "params") "name" = Except.ok name2)
    (hm3 : (Json.obj rf3).lookupKey "method" = some (Json.str "initialize"))
    (hm4 : (Json.obj rf4).lookupKey "method" = method4)
    (h41 : method4 ≠ some (Json.str "tools/list"))
    (h42 : method4 ≠ some (Json.str "tools/call"))
    (h43 : method4 ≠ some (Json.str "initialize"))
    (h44 : method4 ≠ some (Json.str "notifications/initialized")) :
    (exactlyOneResultOrError (weatherServe (Except.ok (Json.obj rf1))).body = true ∧
     (weatherServe (Except.ok (Json.obj rf1))).body.lookupKey "id" =
       (Json.obj rf1).lookupKey "id" ∧
     exactlyOneResultOrError (chromaServe B (Except.ok (Json.obj rf1))).body = true ∧
     (chromaServe B (Except.ok (Json.obj rf1))).body.lookupKey "id" =
       (Json.obj rf1).lookupKey "id") ∧
    (∃ body, weatherServe (Except.ok (Json.obj rf2)) = ⟨200, body⟩ ∧
       exactlyOneResultOrError body = true ∧
       body.lookupKey "id" = (Json.obj rf2).lookupKey "id") ∧
    (∃ body, chromaServe B (Except.ok (Json.obj rf2)) = ⟨200, body⟩ ∧
       exactlyOneResultOrError body = true ∧
       body.lookupKey "id" = (Json.obj rf2).lookupKey "id") ∧
    (exactlyOneResultOrError (weatherServe (Except.ok (Json.obj rf3))).body = true ∧
     (weatherServe (Except.ok (Json.obj rf3))).body.lookupKey "id" =
       (Json.obj rf3).lookupKey "id" ∧
     exactlyOneResultOrError (chromaServe B (Except.ok (Json.obj rf3))).body = true ∧
     (chromaServe B (Except.ok (Json.obj rf3))).body.lookupKey "id" =
       (Json.obj rf3).lookupKey "id") ∧
    (exactlyOneResultOrError (weatherServe (Except.ok (Json.obj rf4))).body = true ∧
     (weatherServe (Except.ok (Json.obj rf4))).body.lookupKey "id" =
       (Json.obj rf4).lookupKey "id" ∧
     exactlyOneResultOrError (chromaServe B (Except.ok (Json.obj rf4))).body = true ∧
     (chromaServe B (Except.ok (Json.obj rf4))).body.lookupKey "id" =
       (Json.obj rf4).lookupKey "id") ∧
    (∀ rf5 : List (String × Json),
       (Json.obj rf5).lookupKey "method" = some (Json.str "notifications/initialized") →
       (weatherServe (Except.ok (Json.obj rf5))).body =
         Json.obj [("jsonrpc", Json.str "2.0")] ∧
       (chromaServe B (Except.ok (Json.obj rf5))).body =
         Json.obj [("jsonrpc", Json.str "2.0")] ∧
       exactlyOneResultOrError (Json.obj [("jsonrpc", Json.str "2.0")]) = false ∧
       (Json.obj [("jsonrpc", Json.str "2.0")]).lookupKey "id" = none) := by
  refine ⟨?_, ?_, ?_, ?_, ?_, ?_⟩
  · rw [weatherServe_toolsList rf1 hm1, chromaServe_toolsList B rf1 hm1]
    exact ⟨rpcResult_exactlyOne _ _, by simp [weatherHandleToolsList],
           rpcResult_exactlyOne _ _, by simp [chromaHandleToolsList]⟩
  · obtain ⟨body, hcall, hx, hid⟩ :=
      weatherHandleToolsCall_shape ((Json.obj rf2).lookupKey "id")
        ((Json.obj rf2).lookupKey "params") name2 hn2
    refine ⟨body, ?_, hx, hid⟩
    rw [weatherServe_toolsCall rf2 hm2, hcall]
  · obtain ⟨body, hcall, hx, hid⟩ :=
      chromaHandleToolsCall_shape B ((Json.obj rf2).lookupKey "id")
        ((Json.obj rf2).lookupKey "params") name2 hn2
    refine ⟨body, ?_, hx, hid⟩
    rw [chromaServe_toolsCall B rf2 hm2, hcall]
  · rw [weatherServe_init rf3 hm3, chromaServe_init B rf3 hm3]
    exact ⟨rpcResult_exactlyOne _ _, by simp, rpcResult_exactlyOne _ _, by simp⟩
  · rw [weatherServe_unknownMethod rf4 method4 hm4 h41 h42 h43 h44,
        chromaServe_unknownMethod B rf4 method4 hm4 h41 h42 h43 h44]
    exact ⟨rpcError_exactlyOne _ _ _, by simp, rpcError_exactlyOne _ _ _, by simp⟩
  · intro rf5 hm5
    rw [weatherServe_notif rf5 hm5, chromaServe_notif B rf5 hm5]
    exact ⟨rfl, rfl, rfl, rfl⟩

/-- Witness for the amended C3 at concrete requests of each branch. -/
theorem response_envelope_exclusive_on_request_branches_witness :
    (Json.obj demoToolsListReq).lookupKey "method" = some (Json.str "tools/list") ∧
    exactlyOneResultOrError
      (weatherServe (Except.ok (Json.obj demoToolsListReq))).body = true ∧
    (∃ body, weatherServe (Except.ok (Json.obj demoUnknownToolReq)) = ⟨200, body⟩ ∧
       exactlyOneResultOrError body = true ∧
       body.lookupKey "id" = (Json.obj demoUnknownToolReq).lookupKey "id") :=
  ⟨rfl,
   (response_envelope_exclusive_on_request_branches demoChromaBackend
      demoToolsListReq demoUnknownToolReq demoInitReq demoBadMethodReq
      (some (Json.str "does_not_exist")) (some (Json.str "resources/list"))
      rfl rfl rfl rfl rfl (by simp) (by simp) (by simp) (by simp)).1.1,
   (response_envelope_exclusive_on_request_branches demoChromaBackend
      demoToolsListReq demoUnknownToolReq demoInitReq demoBadMethodReq
      (some (Json.str "does_not_exist")) (some (Json.str "resources/list"))
      rfl rfl rfl rfl rfl (by simp) (by simp) (by simp) (by simp)).2.1⟩

end RagMcp
